import Mathlib

/-
Verification development for the shacl-generator repository.

Shallow embedding of the Python source files
  shacl_generator/datafields.py  (DataField, DataFieldRegistry)
  shacl_generator/instances.py   (InstanceStore, CitizenInstance)
  shacl_generator/generator.py   (GeneratorContext)
  shacl_generator/llm.py         (LLMInterface.process of the model response)

Python dictionaries are embedded as insertion-ordered association lists
with unique keys and replace-in-place assignment, which is the observable
behaviour of dict in CPython.  The external libraries (rdflib parsing,
yaml text encoding, the OpenAI completion client, the re module) are
treated as oracles: graphs enter the embedding already parsed, yaml save
and load are modelled at the level of the structured document handed to
yaml.dump and returned by yaml.safe_load, and regular-expression matching
is an uninterpreted boolean function carried by the instance store.
-/

namespace ShaclGen

/-! ## Association lists: the embedding of Python dict -/

/-- Lookup in an insertion-ordered association list, the embedding of
Python dict subscript and dict.get. -/
def lookupA {α : Type} : List (String × α) → String → Option α
  | [], _ => none
  | (k, v) :: rest, key => if k = key then some v else lookupA rest key

/-- Assignment d[k] = v on a Python dict: replaces the value in place when
the key is present, otherwise appends the new binding at the end. -/
def insertA {α : Type} : List (String × α) → String → α → List (String × α)
  | [], k, v => [(k, v)]
  | (k0, v0) :: rest, k, v =>
      if k0 = k then (k, v) :: rest else (k0, v0) :: insertA rest k v

/-- Mutation of one stored object in place (d[k].attr = x in Python):
the binding keeps its position, its value is transformed by f. -/
def mapAtA {α : Type} : List (String × α) → String → (α → α) → List (String × α)
  | [], _, _ => []
  | (k0, v0) :: rest, k, f =>
      if k0 = k then (k0, f v0) :: rest else (k0, v0) :: mapAtA rest k f

/-- Ordered-set insertion, the embedding of Python set.add with the list
materialisation determinised to first-insertion order. -/
def insertSet (l : List String) (x : String) : List String :=
  if x ∈ l then l else l ++ [x]

/-! ## Python string primitives

The Python string methods used by the source are re-implemented here over
character lists, because the corresponding Lean library functions work on
byte positions and do not evaluate inside the kernel.  Each function
mirrors the Python method named in its comment; lowering is modelled on
the ascii range, which covers every string the source manipulates. -/

/-- Python str.lower on one ascii character. -/
def lowerChar (c : Char) : Char :=
  if 65 ≤ c.toNat ∧ c.toNat ≤ 90 then Char.ofNat (c.toNat + 32) else c

/-- Python str.lower. -/
def pyLower (s : String) : String := ⟨s.data.map lowerChar⟩

/-- Loop of Python str.replace: scan left to right, replacing each
non-overlapping occurrence of the pattern; the fuel is the character
count of the scanned text, which bounds the number of steps. -/
def replaceLoop (pat rep : List Char) : Nat → List Char → List Char
  | 0, s => s
  | _ + 1, [] => []
  | fuel + 1, c :: rest =>
    if pat ≠ [] ∧ pat.isPrefixOf (c :: rest) then
      rep ++ replaceLoop pat rep fuel ((c :: rest).drop pat.length)
    else c :: replaceLoop pat rep fuel rest

/-- Python str.replace. -/
def pyReplace (s pat rep : String) : String :=
  ⟨replaceLoop pat.data rep.data s.data.length s.data⟩

/-- Python str.startswith. -/
def pyStartsWith (s pre : String) : Bool :=
  pre.data.isPrefixOf s.data

/-- Python character-count slicing s[n:]. -/
def pyDropChars (s : String) (n : Nat) : String := ⟨s.data.drop n⟩

/-- Python str.strip with no argument: whitespace removed at both ends. -/
def pyTrim (s : String) : String :=
  ⟨((s.data.dropWhile Char.isWhitespace).reverse.dropWhile Char.isWhitespace).reverse⟩

/-- Python str.split on a one-character separator, on character lists. -/
def splitCharList (sep : Char) : List Char → List (List Char)
  | [] => [[]]
  | c :: rest =>
    if c = sep then [] :: splitCharList sep rest
    else
      match splitCharList sep rest with
      | [] => [[c]]
      | group :: groups => (c :: group) :: groups

/-- Python str.split on a one-character separator. -/
def pySplit (sep : Char) (s : String) : List String :=
  (splitCharList sep s.data).map (fun l => ⟨l⟩)

/-- Python s in t test for one character. -/
def pyContainsChar (s : String) (c : Char) : Bool := s.data.contains c

/-- Decimal digit-string conversion: the core of Python int parsing on a
trimmed, unsigned text. -/
def digitsToNat (l : List Char) : Option Nat :=
  if l ≠ [] ∧ l.all Char.isDigit then
    some (l.foldl (fun acc c => 10 * acc + (c.toNat - 48)) 0)
  else none

/-! ## Python runtime values and exceptions -/

/-- Python values that flow through the instance store (properties are
typed Dict[str, Any] in the source; strings, booleans and integers are
the shapes the claims exercise). -/
inductive PyVal
  | vStr (s : String)
  | vBool (b : Bool)
  | vInt (n : Int)
deriving DecidableEq

/-- Python truthiness (bool(v)): empty string, False and 0 are falsy. -/
def pyTruthy : PyVal → Bool
  | .vStr s => s ≠ ""
  | .vBool b => b
  | .vInt n => n ≠ 0

/-- Python equality (v == w): booleans compare numerically with integers
(True == 1, False == 0); strings never equal numbers. -/
def pyEq : PyVal → PyVal → Bool
  | .vStr s, .vStr t => s = t
  | .vBool a, .vBool b => a = b
  | .vInt n, .vInt m => n = m
  | .vInt n, .vBool b => n = (if b then 1 else 0)
  | .vBool b, .vInt n => n = (if b then 1 else 0)
  | .vStr _, _ => false
  | _, .vStr _ => false

/-- Python membership v in tuple, which tests with == on each element. -/
def pyIn (v : PyVal) (l : List PyVal) : Bool :=
  l.any (fun w => pyEq v w)

/-- Python str(v). -/
def pyStr : PyVal → String
  | .vStr s => s
  | .vBool b => if b then "True" else "False"
  | .vInt n => toString n

/-- Core of the Python int(str) builtin: surrounding whitespace stripped,
an optional sign, then decimal digits; anything else raises ValueError. -/
def parseIntStr (s : String) : Option Int :=
  let t := (pyTrim s).data
  if t.headD ' ' = '-' then (digitsToNat (t.drop 1)).map (fun n => -(n : Int))
  else if t.headD ' ' = '+' then (digitsToNat (t.drop 1)).map (fun n => (n : Int))
  else (digitsToNat t).map (fun n => (n : Int))

/-- Python int(value): succeeds on integers and booleans, parses strings,
none models the ValueError or TypeError raised otherwise. -/
def pyIntVal : PyVal → Option Int
  | .vInt n => some n
  | .vBool b => some (if b then 1 else 0)
  | .vStr s => parseIntStr s

/-- Digit-string test used by the float model below. -/
def allDigits (l : List Char) : Bool :=
  l ≠ [] && l.all Char.isDigit

/-- Core of the Python float(str) builtin on its plain decimal forms:
digits, digits dot, digits dot digits, dot digits, with an optional sign
and surrounding whitespace.  Exponent and inf or nan spellings are not
reached by any theorem below. -/
def parseFloatStrOk (s : String) : Bool :=
  let t := (pyTrim s).data
  let u := if t.headD ' ' = '-' ∨ t.headD ' ' = '+' then t.drop 1 else t
  match splitCharList '.' u with
  | [d] => allDigits d
  | [d, f] => (allDigits d && (f.isEmpty || allDigits f)) || (d.isEmpty && allDigits f)
  | _ => false

/-- Python float(value): succeeds on integers and booleans, parses strings. -/
def pyFloatOk : PyVal → Bool
  | .vInt _ => true
  | .vBool _ => true
  | .vStr s => parseFloatStrOk s

/-- Python exceptions that the embedded code can raise, tagged with the
message where a theorem inspects it. -/
inductive PyErr
  | valueError (msg : String)
  | typeError (msg : String)
  | attributeError (msg : String)
deriving DecidableEq

/-! ## GeneratorContext (generator.py lines 17 to 42) -/

/-- FeedbackHistory dataclass (generator.py lines 11 to 15). -/
structure FeedbackHistory where
  text_id : String
  feedback : String
  improved_shape : String
deriving DecidableEq

/-- GeneratorContext dataclass (generator.py lines 17 to 21). -/
structure GeneratorContext where
  feedback_history : List FeedbackHistory
  general_guidelines : List String
deriving DecidableEq

/-- remove_guideline (generator.py lines 34 to 37): deletes by index only
when 0 <= index < len(general_guidelines), otherwise does nothing.  The
index is an Int because Python indices can be negative. -/
def remove_guideline (ctx : GeneratorContext) (index : Int) : GeneratorContext :=
  if 0 ≤ index ∧ index < (ctx.general_guidelines.length : Int) then
    { ctx with general_guidelines := ctx.general_guidelines.eraseIdx index.toNat }
  else ctx

/-- remove_feedback (generator.py lines 39 to 42): same guarded delete on
the feedback history. -/
def remove_feedback (ctx : GeneratorContext) (index : Int) : GeneratorContext :=
  if 0 ≤ index ∧ index < (ctx.feedback_history.length : Int) then
    { ctx with feedback_history := ctx.feedback_history.eraseIdx index.toNat }
  else ctx

/-! ## DataField and the registry (datafields.py) -/

/-- One allowed-value record, the dict with keys id and label built at
datafields.py lines 198 to 208. -/
structure AOEntry where
  id : String
  label : String
deriving DecidableEq

/-- The constraints dictionary assembled by import_from_shacl.  The
source uses a Python dict with exactly the string keys below (datafields.py
lines 106 to 260 plus the pattern key read by instances.py line 79); an
absent option field is an absent key.  All scalar constraint values are
stored as str(...) in the source, hence String here. -/
structure Constraints where
  targetObjectsOf : Option String := none
  datatype : Option String := none
  allowed_values : Option (List AOEntry) := none
  targetSubjectsOf : Option String := none
  minCount : Option String := none
  maxCount : Option String := none
  pattern : Option String := none
deriving DecidableEq

/-- The empty constraints dict. -/
def emptyConstraints : Constraints := {}

/-- DataField dataclass (datafields.py lines 8 to 16). -/
structure DataField where
  name : String
  path : String
  datatype : String
  description : String
  examples : List String := []
  synonyms : List String := []
  constraints : Constraints := {}
deriving DecidableEq

/-- One record of the on-disk yaml document: the per-field dict written
by DataFieldRegistry.save (datafields.py lines 325 to 336).  The yaml text
encoding itself is an external library assumed faithful on this shape. -/
structure FieldRecord where
  name : String
  path : String
  datatype : String
  description : String
  examples : List String
  synonyms : List String
  constraints : Constraints
deriving DecidableEq

/-- Registry state: the in-memory fields dict plus the stored yaml
document (the storage_path file contents, structurally). -/
structure RegistryState where
  fields : List (String × DataField)
  stored : List (String × FieldRecord)
deriving DecidableEq

/-- The dict comprehension inside save (datafields.py lines 325 to 336). -/
def serializeFields (fields : List (String × DataField)) : List (String × FieldRecord) :=
  fields.map (fun p =>
    (p.1, { name := p.2.name, path := p.2.path, datatype := p.2.datatype,
            description := p.2.description, examples := p.2.examples,
            synonyms := p.2.synonyms, constraints := p.2.constraints }))

/-- The dict comprehension inside load (datafields.py lines 350 to 361). -/
def deserializeFields (stored : List (String × FieldRecord)) : List (String × DataField) :=
  stored.map (fun p =>
    (p.1, { name := p.2.name, path := p.2.path, datatype := p.2.datatype,
            description := p.2.description, examples := p.2.examples,
            synonyms := p.2.synonyms, constraints := p.2.constraints }))

/-- DataFieldRegistry.save (datafields.py lines 323 to 339): writes the
serialized mapping to the storage path. -/
def registrySave (reg : RegistryState) : RegistryState :=
  { reg with stored := serializeFields reg.fields }

/-- DataFieldRegistry.load (datafields.py lines 341 to 361): when the
loaded document is empty or missing (yaml.safe_load returned a falsy
value) the fields dict is left as it is, otherwise it is rebuilt from the
document. -/
def registryLoad (reg : RegistryState) : RegistryState :=
  if reg.stored.isEmpty then reg
  else { reg with fields := deserializeFields reg.stored }

/-- DataFieldRegistry.add_field (datafields.py lines 289 to 292): insert
or overwrite by field name, then save. -/
def add_field (reg : RegistryState) (f : DataField) : RegistryState :=
  registrySave { reg with fields := insertA reg.fields f.name f }

/-- DataFieldRegistry.update_field_datatype (datafields.py lines 419 to
428): ValueError on an unknown name, ValueError when the new datatype
does not start with the xsd: tag, otherwise the datatype of that one
field is changed in memory and nothing is saved. -/
def update_field_datatype (reg : RegistryState) (field_name new_datatype : String) :
    Except PyErr RegistryState :=
  if (lookupA reg.fields field_name).isNone then
    .error (.valueError ("Unknown field: " ++ field_name))
  else if ¬ pyStartsWith new_datatype "xsd:" then
    .error (.valueError "Datatype must start with xsd:")
  else
    let fields2 := mapAtA reg.fields field_name (fun f => { f with datatype := new_datatype })
    .ok { reg with fields := fields2 }

/-! ## InstanceStore (instances.py) -/

/-- RDF terms of an instance graph, as produced by InstanceStore: named
nodes and the typed literals built by to_literal (instances.py lines 86
to 97).  A decimal or date literal carries the Python value it was built
from, which no claim inspects further. -/
inductive RTerm
  | uri (s : String)
  | litInt (n : Int)
  | litBool (b : Bool)
  | litDec (v : PyVal)
  | litDate (v : PyVal)
  | litStr (s : String)
deriving DecidableEq

/-- CitizenInstance dataclass (instances.py lines 10 to 14); the graph is
the list of triples added to the rdflib Graph in insertion order. -/
structure CitizenInstance where
  instance_id : String
  properties : List (String × PyVal)
  graph : List (RTerm × RTerm × RTerm)
deriving DecidableEq

/-- InstanceStore state (instances.py lines 16 to 22): the field registry
it validates against, its instances dict, and the re.match oracle of the
external re module used for the pattern constraint. -/
structure InstanceStore where
  fields : List (String × DataField)
  instances : List (String × CitizenInstance)
  reMatch : String → String → Bool

/-- The foerderfunke namespace bound at instances.py line 22. -/
def ffNS : String := "https://foerderfunke.org/default#"

/-- The rdf:type property URI. -/
def rdfTypeT : RTerm := .uri "http://www.w3.org/1999/02/22-rdf-syntax-ns#type"

/-- The ff:Citizen class URI. -/
def ffCitizenT : RTerm := .uri (ffNS ++ "Citizen")

/-- InstanceStore validate_value (instances.py lines 59 to 84).
Source text, line by line:
  if not value and field.constraints.get('minCount', 0) > 0: return False
(the stored minCount is always a string, so the comparison with the int 0
raises TypeError in Python 3 whenever it is evaluated);
  if field.datatype.startswith('xsd:'): datatype = field.datatype.split(':')[1]
then inside try/except (ValueError, TypeError):
  integer: int(value); decimal: float(value);
  boolean: return value in (True, False, 'true', 'false'); date: pass;
a conversion failure returns False;
  pattern in constraints: return False unless re.match(pattern, str(value));
  return True. -/
def patternCheck (re : String → String → Bool) (field : DataField) (value : PyVal) :
    Except PyErr Bool :=
  match field.constraints.pattern with
  | some p => if ¬ re p (pyStr value) then .ok false else .ok true
  | none => .ok true

/-- The body of validate_value after the pattern check was split off
above; see the comment there for the line-by-line correspondence. -/
def validate_value (re : String → String → Bool) (field : DataField) (value : PyVal) :
    Except PyErr Bool :=
  let afterMin : Except PyErr Bool :=
    if pyStartsWith field.datatype "xsd:" then
      let datatype := ((pySplit ':' field.datatype).drop 1).headD ""
      if datatype = "integer" then
        match pyIntVal value with
        | some _ => patternCheck re field value
        | none => .ok false
      else if datatype = "decimal" then
        if pyFloatOk value then patternCheck re field value else .ok false
      else if datatype = "boolean" then
        .ok (pyIn value [.vBool true, .vBool false, .vStr "true", .vStr "false"])
      else patternCheck re field value
    else patternCheck re field value
  if ¬ pyTruthy value then
    match field.constraints.minCount with
    | some _ => .error (.typeError "not supported between instances of str and int")
    | none => afterMin
  else afterMin

/-- InstanceStore to_literal (instances.py lines 86 to 97).  The integer
branch re-runs int(value), whose failure would propagate uncaught; the
boolean branch applies bool(value), which is Python truthiness. -/
def to_literal (value : PyVal) (datatype : String) : Except PyErr RTerm :=
  if datatype = "xsd:integer" then
    match pyIntVal value with
    | some n => .ok (.litInt n)
    | none => .error (.valueError "invalid literal for int")
  else if datatype = "xsd:decimal" then
    if pyFloatOk value then .ok (.litDec value) else .error (.valueError "could not convert string to float")
  else if datatype = "xsd:boolean" then .ok (.litBool (pyTruthy value))
  else if datatype = "xsd:date" then .ok (.litDate value)
  else .ok (.litStr (pyStr value))

/-- The first loop of create_instance (instances.py lines 30 to 35):
every property is validated before any triple is built. -/
def validateProps (st : InstanceStore) : List (String × PyVal) → Except PyErr Unit
  | [] => .ok ()
  | (field_name, value) :: rest =>
    match lookupA st.fields field_name with
    | none => .error (.valueError ("Unknown field: " ++ field_name))
    | some field =>
      match validate_value st.reMatch field value with
      | .error e => .error e
      | .ok true => validateProps st rest
      | .ok false => .error (.valueError ("Invalid value for " ++ field_name ++ ": " ++ pyStr value))

/-- The second loop of create_instance (instances.py lines 44 to 52):
one triple per property, predicate from the field path (ff: expanded to
the namespace), object from to_literal. -/
def buildTriples (st : InstanceStore) : List (String × PyVal) →
    Except PyErr (List (RTerm × RTerm))
  | [] => .ok []
  | (field_name, value) :: rest =>
    match lookupA st.fields field_name with
    | none => .error (.attributeError "NoneType object has no attribute path")
    | some field =>
      let pred : RTerm :=
        if pyStartsWith field.path "ff:" then .uri (ffNS ++ pyDropChars field.path 3)
        else .uri field.path
      match to_literal value field.datatype with
      | .error e => .error e
      | .ok obj =>
        match buildTriples st rest with
        | .error e => .error e
        | .ok ts => .ok ((pred, obj) :: ts)

/-- InstanceStore.create_instance (instances.py lines 24 to 57): clean
the id, validate all properties, build the rdf graph with the type triple
first, store and return the instance.  The disk write of _save_instance
is external io with no effect on the in-memory state. -/
def create_instance (st : InstanceStore) (instance_id : String)
    (properties : List (String × PyVal)) : Except PyErr (InstanceStore × CitizenInstance) :=
  let safe_id := pyLower (pyReplace (pyReplace instance_id " " "_") "-" "_")
  match validateProps st properties with
  | .error e => .error e
  | .ok _ =>
    let subj : RTerm := .uri (ffNS ++ "citizen_" ++ safe_id)
    match buildTriples st properties with
    | .error e => .error e
    | .ok ts =>
      let g := (subj, rdfTypeT, ffCitizenT) :: ts.map (fun p => (subj, p.1, p.2))
      let inst : CitizenInstance := ⟨safe_id, properties, g⟩
      .ok ({ st with instances := insertA st.instances safe_id inst }, inst)

/-- Projection: the instance returned by a successful create_instance. -/
def okInst : Except PyErr (InstanceStore × CitizenInstance) → Option CitizenInstance
  | .ok p => some p.2
  | .error _ => none

/-- Projection: the store returned by a successful create_instance. -/
def okStore : Except PyErr (InstanceStore × CitizenInstance) → Option InstanceStore
  | .ok p => some p.1
  | .error _ => none

/-- Projection: the graph of the instance returned on success. -/
def okGraph (r : Except PyErr (InstanceStore × CitizenInstance)) :
    Option (List (RTerm × RTerm × RTerm)) :=
  (okInst r).map CitizenInstance.graph

/-! ## RDF graphs as parsed by rdflib (datafields.py import_from_shacl) -/

/-- RDF nodes of an imported graph: named nodes, blank nodes and literals
with an optional language tag.  Literal datatypes play no role in the
importer beyond str(), which returns the lexical value. -/
inductive Node
  | uri (s : String)
  | bnode (n : Nat)
  | lit (v : String) (lang : Option String)
deriving DecidableEq

/-- A parsed rdf graph: its triples, determinised to a list.  rdflib
stores a set of triples and iterates them in arbitrary order; every
theorem below either fixes a concrete graph or is insensitive to the
order chosen. -/
abbrev Graph : Type := List (Node × Node × Node)

/-- Python str(node): the URI text, the blank node label, or the literal
lexical value. -/
def nodeStr : Node → String
  | .uri s => s
  | .bnode n => "N" ++ toString n
  | .lit v _ => v

/-- Python truthiness of an rdflib node: URIRef and Literal subclass str,
so the empty text is falsy; generated blank node labels are never empty. -/
def truthyN : Node → Bool
  | .uri s => s ≠ ""
  | .bnode _ => true
  | .lit v _ => v ≠ ""

/-- Python str.split on the hash sign, last component, the local-name
derivation used throughout the importer. -/
def fragment (s : String) : String :=
  (pySplit '#' s).getLastD s

/-- Namespace constants used by the importer. -/
def rdfNSs : String := "http://www.w3.org/1999/02/22-rdf-syntax-ns#"

/-- The rdf:type property. -/
def rdfType : Node := .uri (rdfNSs ++ "type")

/-- The rdf:first property of list cells. -/
def rdfFirst : Node := .uri (rdfNSs ++ "first")

/-- The rdf:rest property of list cells. -/
def rdfRest : Node := .uri (rdfNSs ++ "rest")

/-- The rdf:nil list terminator. -/
def rdfNil : Node := .uri (rdfNSs ++ "nil")

/-- The shacl namespace. -/
def shNSs : String := "http://www.w3.org/ns/shacl#"

/-- The sh:in property. -/
def shIn : Node := .uri (shNSs ++ "in")

/-- The sh:datatype property. -/
def shDatatype : Node := .uri (shNSs ++ "datatype")

/-- The sh:targetObjectsOf property. -/
def shTargetObjectsOf : Node := .uri (shNSs ++ "targetObjectsOf")

/-- The sh:targetSubjectsOf property. -/
def shTargetSubjectsOf : Node := .uri (shNSs ++ "targetSubjectsOf")

/-- The sh:minCount property. -/
def shMinCount : Node := .uri (shNSs ++ "minCount")

/-- The sh:maxCount property. -/
def shMaxCount : Node := .uri (shNSs ++ "maxCount")

/-- The sh:property property. -/
def shProperty : Node := .uri (shNSs ++ "property")

/-- The sh:PropertyShape class. -/
def shPropertyShape : Node := .uri (shNSs ++ "PropertyShape")

/-- The sh:NodeShape class. -/
def shNodeShape : Node := .uri (shNSs ++ "NodeShape")

/-- The ff:DataField class. -/
def ffDataField : Node := .uri (ffNS ++ "DataField")

/-- The ff:AnswerOption class. -/
def ffAnswerOption : Node := .uri (ffNS ++ "AnswerOption")

/-- The ff:objectConstraints property. -/
def ffObjectConstraints : Node := .uri (ffNS ++ "objectConstraints")

/-- The ff:usageConstraints property. -/
def ffUsageConstraints : Node := .uri (ffNS ++ "usageConstraints")

/-- The rdfs:label property. -/
def rdfsLabel : Node := .uri "http://www.w3.org/2000/01/rdf-schema#label"

/-- The rdfs:comment property. -/
def rdfsComment : Node := .uri "http://www.w3.org/2000/01/rdf-schema#comment"

/-- The schema.org question property. -/
def schemaQuestion : Node := .uri "http://schema.org/question"

/-- The schema.org category property. -/
def schemaCategory : Node := .uri "http://schema.org/category"

/-- All objects of triples with the given subject and predicate, the
embedding of rdflib g.objects. -/
def objects (g : Graph) (s p : Node) : List Node :=
  g.filterMap (fun t => if t.1 = s ∧ t.2.1 = p then some t.2.2 else none)

/-- rdflib g.value with its default any=True: one object of a matching
triple, or None; determinised to the first match in the triple list. -/
def getValue (g : Graph) (s p : Node) : Option Node :=
  match g.find? (fun t => decide (t.1 = s ∧ t.2.1 = p)) with
  | some t => some t.2.2
  | none => none

/-- All subjects typed with the given class, the embedding of rdflib
g.subjects(RDF.type, cls). -/
def subjectsOfType (g : Graph) (cls : Node) : List Node :=
  g.filterMap (fun t => if t.2.1 = rdfType ∧ t.2.2 = cls then some t.1 else none)

/-- Triple membership test, the embedding of the Python expression
(s, p, o) in g. -/
def memTriple (g : Graph) (s p o : Node) : Bool :=
  decide ((s, p, o) ∈ g)

/-- Python falsiness of an optional string variable holding a Literal or
None: None and the empty text are falsy. -/
def falsyOpt : Option String → Bool
  | none => true
  | some s => s = ""

/-- The label and description selection loops of import_from_shacl
(datafields.py lines 44 to 56 and 70 to 98): take the first literal with
language en and stop; otherwise each literal is taken only while the
current candidate is still falsy. -/
def pick_literal : List Node → Option String → Option String
  | [], acc => acc
  | n :: rest, acc =>
    match n with
    | .lit v lang =>
        if lang = some "en" then some v
        else if falsyOpt acc then pick_literal rest (some v)
        else pick_literal rest acc
    | _ => pick_literal rest acc

/-- One loop step of traverse_rdf_list (datafields.py lines 153 to 175),
with explicit fuel standing for the number of remaining iterations of the
unbounded Python while loop; every theorem below supplies fuel at least
the number of loop iterations of the run it describes, so the behaviour
coincides with the source on those runs.  The body: while the node is
truthy, read first = g.value(node, RDF.first) and append it only when it
is itself truthy (the if first: guard at line 164, which also skips a
falsy literal element such as the empty string), step to
g.value(node, RDF.rest), and stop at rdf:nil or at a missing rest link
(where the next node is None and the loop condition fails). -/
def traverseAux (g : Graph) : Nat → Option Node → List Node
  | 0, _ => []
  | _ + 1, none => []
  | fuel + 1, some n =>
    if truthyN n then
      let items : List Node :=
        match getValue g n rdfFirst with
        | some f => if truthyN f then [f] else []
        | none => []
      let next := getValue g n rdfRest
      if next = some rdfNil then items
      else items ++ traverseAux g fuel next
    else []

/-- traverse_rdf_list entry point: the chain of a terminating run visits
pairwise distinct nodes, each consuming one triple of the graph, so
length g + 1 iterations always suffice (proved below as the bound
lemmas). -/
def traverse_rdf_list (g : Graph) (list_node : Node) : List Node :=
  traverseAux g (g.length + 1) (some list_node)

/-- The sh:in collection loop (datafields.py lines 177 to 191): a blank
node object is traversed as an rdf list and its items are kept only when
nonempty, any other object is appended directly. -/
def collectAllowedValues (g : Graph) (prop_shape : Node) : List Node :=
  (objects g prop_shape shIn).foldl
    (fun acc val =>
      match val with
      | .bnode _ =>
          let items := traverse_rdf_list g val
          if items.isEmpty then acc else acc ++ items
      | _ => acc ++ [val])
    []

/-- Resolution of one allowed value against the answer-option index
(datafields.py lines 195 to 208): the indexed record when the URI text is
a key, else id and label both set to the local name. -/
def resolveAO (answer_options : List (String × AOEntry)) (value : Node) : AOEntry :=
  match lookupA answer_options (nodeStr value) with
  | some e => e
  | none =>
      let value_id := fragment (nodeStr value)
      ⟨value_id, value_id⟩

/-- The body under if prop_shape (datafields.py lines 131 to 209):
record targetObjectsOf, record the datatype normalised to an xsd: tag
when its text contains a hash, and record the allowed values when any
were collected. -/
def applyPropShape (g : Graph) (answer_options : List (String × AOEntry))
    (prop_shape : Node) (c : Constraints) : Constraints :=
  let c :=
    match getValue g prop_shape shTargetObjectsOf with
    | some v => { c with targetObjectsOf := some (nodeStr v) }
    | none => c
  let c :=
    match getValue g prop_shape shDatatype with
    | some v =>
        let s := nodeStr v
        { c with datatype := some (if pyContainsChar s '#' then "xsd:" ++ fragment s else s) }
    | none => c
  let allowed_values := collectAllowedValues g prop_shape
  if allowed_values.isEmpty then c
  else { c with allowed_values := some (allowed_values.map (resolveAO answer_options)) }

/-- The property-shape resolution for one objectConstraints object
(datafields.py lines 113 to 129): the object itself when directly typed
sh:PropertyShape, otherwise the scan over all property-shape-typed
subjects whose inner check is satisfied by construction, so the first
such subject of the graph. -/
def resolvePropShape (g : Graph) (obj_constraints : Node) : Option Node :=
  if memTriple g obj_constraints rdfType shPropertyShape then some obj_constraints
  else (subjectsOfType g shPropertyShape).find?
    (fun ps => memTriple g ps rdfType shPropertyShape)

/-- The objectConstraints loop (datafields.py lines 110 to 209). -/
def processObjectConstraints (g : Graph) (answer_options : List (String × AOEntry))
    (field_uri : Node) (c : Constraints) : Constraints :=
  (objects g field_uri ffObjectConstraints).foldl
    (fun c oc =>
      match resolvePropShape g oc with
      | some prop_shape => applyPropShape g answer_options prop_shape c
      | none => c)
    c

/-- The node-shape resolution for one usageConstraints object
(datafields.py lines 217 to 231), symmetric to resolvePropShape. -/
def resolveNodeShape (g : Graph) (usage_constraints : Node) : Option Node :=
  if memTriple g usage_constraints rdfType shNodeShape then some usage_constraints
  else (subjectsOfType g shNodeShape).find?
    (fun ns => memTriple g ns rdfType shNodeShape)

/-- The body under if node_shape (datafields.py lines 233 to 259):
record targetSubjectsOf and, per nested sh:property object, minCount and
maxCount as str() of their values; the path comparison only prints. -/
def applyNodeShape (g : Graph) (node_shape : Node) (c : Constraints) : Constraints :=
  let c :=
    match getValue g node_shape shTargetSubjectsOf with
    | some v => { c with targetSubjectsOf := some (nodeStr v) }
    | none => c
  (objects g node_shape shProperty).foldl
    (fun c prop =>
      let c :=
        match getValue g prop shMinCount with
        | some v => { c with minCount := some (nodeStr v) }
        | none => c
      match getValue g prop shMaxCount with
      | some v => { c with maxCount := some (nodeStr v) }
      | none => c)
    c

/-- The usageConstraints loop (datafields.py lines 212 to 259). -/
def processUsageConstraints (g : Graph) (field_uri : Node) (c : Constraints) : Constraints :=
  (objects g field_uri ffUsageConstraints).foldl
    (fun c uc =>
      match resolveNodeShape g uc with
      | some node_shape => applyNodeShape g node_shape c
      | none => c)
    c

/-- The answer-option pre-indexing loop (datafields.py lines 41 to 56):
for every AnswerOption subject, map its URI text to the local name and
the selected label, falling back to the local name when the label is
falsy. -/
def answerOptionsOf (g : Graph) : List (String × AOEntry) :=
  (subjectsOfType g ffAnswerOption).foldl
    (fun acc ao =>
      let ao_id := fragment (nodeStr ao)
      let label := pick_literal (objects g ao rdfsLabel) none
      let entry : AOEntry := ⟨ao_id, if falsyOpt label then ao_id else label.getD ""⟩
      insertA acc (nodeStr ao) entry)
    []

/-- The body of the per-field try block (datafields.py lines 66 to 278)
as a fallible computation.  The single raising operation in the block is
g.value(field_uri, schema.category, None, any=False) at line 101, which
raises UniquenessError when the subject has more than one distinct
category; everything else is pure dictionary and string work.  On
success the DataField of lines 264 to 274 is returned. -/
def processField (g : Graph) (answer_options : List (String × AOEntry))
    (field_uri : Node) : Except Unit DataField :=
  let field_name := fragment (nodeStr field_uri)
  let label := pick_literal (objects g field_uri rdfsLabel) none
  let descComment := pick_literal (objects g field_uri rdfsComment) none
  let description :=
    if falsyOpt descComment then pick_literal (objects g field_uri schemaQuestion) descComment
    else descComment
  if 2 ≤ ((objects g field_uri schemaCategory).dedup).length then .error ()
  else
    let c := processObjectConstraints g answer_options field_uri emptyConstraints
    let c := processUsageConstraints g field_uri c
    let datatype := c.datatype.getD "xsd:string"
    let descStr :=
      if ¬ falsyOpt description then description.getD ""
      else if ¬ falsyOpt label then label.getD ""
      else "Field for " ++ field_name
    let examples :=
      match c.allowed_values with
      | some opts => opts.map (fun o => o.label ++ " (" ++ o.id ++ ")")
      | none => []
    .ok { name := field_name, path := "ff:" ++ field_name, datatype := datatype,
          description := descStr, examples := examples, synonyms := [], constraints := c }

/-- DataFieldRegistry.import_from_shacl (datafields.py lines 24 to 287)
after the external rdflib parse: index the answer options, then for every
DataField-typed subject run the per-field block; a success registers the
field (add_field inserts by name and saves) and adds its name to the
imported set, a raised exception is caught, logged and skipped.  Returns
the updated registry and list(imported_fields). -/
def import_from_shacl (reg : RegistryState) (g : Graph) : RegistryState × List String :=
  let answer_options := answerOptionsOf g
  (subjectsOfType g ffDataField).foldl
    (fun acc field_uri =>
      match processField g answer_options field_uri with
      | .ok f => (add_field acc.1 f, insertSet acc.2 f.name)
      | .error _ => acc)
    (reg, [])

/-- Specification helper: the field of every DataField subject whose
per-field block succeeds, in subject order. -/
def successFields (g : Graph) : List DataField :=
  (subjectsOfType g ffDataField).filterMap
    (fun u => (processField g (answerOptionsOf g) u).toOption)

/-- Specification helper: the successfully imported names in order,
possibly with repetitions. -/
def successNames (g : Graph) : List String :=
  (successFields g).map DataField.name

/-- Specification helper: the subjects of the rest triples of a graph,
used to bound the length of any encoded list chain. -/
def restSubjects (g : Graph) : List Node :=
  g.filterMap (fun t => if t.2.1 = rdfRest then some t.1 else none)

/-! ## LLMInterface response processing (llm.py lines 411 to 493) -/

/-- LLMInterface process of the model response (llm.py lines 411 to 493),
parameterised over its collaborators: parse is rdflib Graph.parse on
turtle text (the graph it yields, or the exception it raises), fix is the
round trip through the completion service with the fix prompt built from
the extracted content, extract is the extract_turtle_content helper of
this class, and extractFields is the extract_new_fields helper applied
when a field registry is attached.  The returned number counts the repair
calls made to the completion service: zero when the first parse succeeds,
one otherwise; a failure of the second parse propagates that exception,
and no further repair is attempted. -/
def process_llm_response (hasRegistry : Bool)
    (parse : String → Except PyErr Graph)
    (fix : String → String)
    (extract : String → String)
    (extractFields : String → List DataField)
    (response_text : String) :
    Except PyErr (Graph × List DataField) × Nat :=
  let turtle_content := extract response_text
  match parse turtle_content with
  | .ok g => (.ok (g, if hasRegistry then extractFields turtle_content else []), 0)
  | .error _ =>
      let fixed_content := extract (fix turtle_content)
      match parse fixed_content with
      | .ok g2 => (.ok (g2, if hasRegistry then extractFields fixed_content else []), 1)
      | .error e2 => (.error e2, 1)

/-! ## Well-formed and truncated rdf lists -/

/-- A node heads a well-formed encoded rdf list with the given values:
every cell is truthy, carries exactly the first value returned by
g.value, and the rest chain ends in rdf:nil. -/
inductive EncodesList (g : Graph) : Node → List Node → Prop
  | last {n v : Node} :
      truthyN n = true →
      getValue g n rdfFirst = some v →
      getValue g n rdfRest = some rdfNil →
      EncodesList g n [v]
  | cons {n v m : Node} {vs : List Node} :
      truthyN n = true →
      getValue g n rdfFirst = some v →
      getValue g n rdfRest = some m →
      m ≠ rdfNil →
      EncodesList g m vs →
      EncodesList g n (v :: vs)

/-- A node heads a truncated encoded rdf list: as above, but the final
cell has no rest link at all, so the Python loop stops with the values
collected so far. -/
inductive TruncChain (g : Graph) : Node → List Node → Prop
  | last {n v : Node} :
      truthyN n = true →
      getValue g n rdfFirst = some v →
      getValue g n rdfRest = none →
      TruncChain g n [v]
  | cons {n v m : Node} {vs : List Node} :
      truthyN n = true →
      getValue g n rdfFirst = some v →
      getValue g n rdfRest = some m →
      m ≠ rdfNil →
      TruncChain g m vs →
      TruncChain g n (v :: vs)

/-! ## Concrete fixtures used by the closed theorems and witnesses -/

/-- Registry with a single integer field age at path ff:age, the setting
of the create_instance scenario of the spec. -/
def ageField : DataField :=
  { name := "age", path := "ff:age", datatype := "xsd:integer",
    description := "Age in years" }

/-- Instance store over the age registry; the re oracle is never
consulted because no field carries a pattern constraint. -/
def storeC5 : InstanceStore :=
  { fields := [("age", ageField)], instances := [], reMatch := fun _ _ => false }

/-- The instance that the scenario is expected to produce. -/
def expectedC5 : CitizenInstance :=
  { instance_id := "jane_doe",
    properties := [("age", .vStr "17")],
    graph := [(.uri (ffNS ++ "citizen_jane_doe"), rdfTypeT, ffCitizenT),
              (.uri (ffNS ++ "citizen_jane_doe"), .uri (ffNS ++ "age"), .litInt 17)] }

/-- Registry with a single boolean field flag at path ff:flag. -/
def flagField : DataField :=
  { name := "flag", path := "ff:flag", datatype := "xsd:boolean",
    description := "A boolean field" }

/-- Instance store over the flag registry. -/
def storeC10 : InstanceStore :=
  { fields := [("flag", flagField)], instances := [], reMatch := fun _ _ => false }

/-- Registry with a string field income whose constraints carry the
minCount entry as the string that import_from_shacl stores. -/
def incomeField : DataField :=
  { name := "income", path := "ff:income", datatype := "xsd:string",
    description := "An income field",
    constraints := { minCount := some "1" } }

/-- Instance store over the income registry. -/
def storeC4 : InstanceStore :=
  { fields := [("income", incomeField)], instances := [], reMatch := fun _ _ => false }

/-- Graph in which the sh:in value of the property shape is rdf:nil, the
head of the rdf list of length zero. -/
def gN0 : Graph := [(.bnode 0, shIn, rdfNil)]

/-- Graph with a two-element rdf list as the sh:in value of the property
shape at blank node 0. -/
def gC1 : Graph :=
  [(.bnode 0, shIn, .bnode 1),
   (.bnode 1, rdfFirst, .uri "http://example.org#a"),
   (.bnode 1, rdfRest, .bnode 2),
   (.bnode 2, rdfFirst, .uri "http://example.org#b"),
   (.bnode 2, rdfRest, rdfNil)]

/-- Graph with one malformed DataField subject (two distinct categories,
so the per-field block raises) listed before one well-formed DataField
subject. -/
def gMix : Graph :=
  [(.uri "http://example.org#bad", rdfType, ffDataField),
   (.uri "http://example.org#bad", schemaCategory, .uri "http://example.org#c1"),
   (.uri "http://example.org#bad", schemaCategory, .uri "http://example.org#c2"),
   (.uri "http://example.org#age", rdfType, ffDataField)]

/-- Graph with a single well-formed DataField subject, used to witness
the idempotence theorem. -/
def gC7 : Graph :=
  [(.uri "http://example.org#einkommen", rdfType, ffDataField)]

/-- A registry state with nothing in it. -/
def emptyRegistry : RegistryState := { fields := [], stored := [] }

/-- A parse oracle that rejects every document, standing for rdflib on
turtle text that stays invalid even after the repair round. -/
def parseAlwaysFails : String → Except PyErr Graph :=
  fun _ => .error (.valueError "Bad syntax in turtle document")

/-- Projection: the exception raised by create_instance, if any. -/
def errOf : Except PyErr (InstanceStore × CitizenInstance) → Option PyErr
  | .ok _ => none
  | .error e => some e

/-- A small generator context used by witnesses. -/
def ctxW : GeneratorContext :=
  { feedback_history := [⟨"t1", "use minCount", "shape text"⟩],
    general_guidelines := ["always declare the xsd namespace"] }

/-- A small registry state used by witnesses. -/
def regW : RegistryState := { fields := [("age", ageField)], stored := [] }

/-- The registry state after updating the age datatype in regW. -/
def regW2 : RegistryState :=
  { fields := [("age", { ageField with datatype := "xsd:decimal" })], stored := [] }

/-! # Theorems -/

/-! ## Association list lemmas -/

theorem lookupA_insertA_self {α : Type} (l : List (String × α)) (k : String) (v : α) :
    lookupA (insertA l k v) k = some v := by
  induction l with
  | nil => simp [insertA, lookupA]
  | cons p rest ih =>
    obtain ⟨k0, v0⟩ := p
    by_cases h : k0 = k
    · simp [insertA, h, lookupA]
    · simp [insertA, h, lookupA, ih]

theorem lookupA_insertA_ne {α : Type} (l : List (String × α)) (k k2 : String) (v : α)
    (h : k2 ≠ k) : lookupA (insertA l k v) k2 = lookupA l k2 := by
  have hkk2 : ¬ (k = k2) := fun he => h he.symm
  induction l with
  | nil => simp [insertA, lookupA, hkk2]
  | cons p rest ih =>
    obtain ⟨k0, v0⟩ := p
    by_cases h0 : k0 = k
    · subst h0
      simp [insertA, lookupA, hkk2]
    · simp [insertA, h0, lookupA, ih]

theorem insertA_lookup_eq {α : Type} (l : List (String × α)) (k : String) (v : α)
    (h : lookupA l k = some v) : insertA l k v = l := by
  induction l with
  | nil => simp [lookupA] at h
  | cons p rest ih =>
    obtain ⟨k0, v0⟩ := p
    by_cases h0 : k0 = k
    · subst h0
      simp [lookupA] at h
      simp [insertA, h]
    · simp [lookupA, h0] at h
      simp [insertA, h0, ih h]

theorem lookupA_mapAtA_self {α : Type} (l : List (String × α)) (k : String) (f : α → α) :
    lookupA (mapAtA l k f) k = (lookupA l k).map f := by
  induction l with
  | nil => simp [mapAtA, lookupA]
  | cons p rest ih =>
    obtain ⟨k0, v0⟩ := p
    by_cases h : k0 = k
    · simp [mapAtA, h, lookupA]
    · simp [mapAtA, h, lookupA, ih]

theorem lookupA_mapAtA_ne {α : Type} (l : List (String × α)) (k k2 : String) (f : α → α)
    (h : k2 ≠ k) : lookupA (mapAtA l k f) k2 = lookupA l k2 := by
  have hkk2 : ¬ (k = k2) := fun he => h he.symm
  induction l with
  | nil => simp [mapAtA]
  | cons p rest ih =>
    obtain ⟨k0, v0⟩ := p
    by_cases h0 : k0 = k
    · subst h0
      simp [mapAtA, lookupA, hkk2]
    · simp [mapAtA, h0, lookupA, ih]

/-! ## Claim C9 -/

/-- C9: remove_guideline and remove_feedback, called with any index
outside the half-open range from zero to the length of the respective
list (negative indices and all indices on an empty list included), raise
no error and leave the context unchanged. -/
theorem c9_remove_out_of_range (ctx : GeneratorContext) (index : Int) :
    (¬ (0 ≤ index ∧ index < (ctx.general_guidelines.length : Int)) →
      remove_guideline ctx index = ctx)
    ∧ (¬ (0 ≤ index ∧ index < (ctx.feedback_history.length : Int)) →
      remove_feedback ctx index = ctx) := by
  constructor
  · intro h
    unfold remove_guideline
    rw [if_neg h]
  · intro h
    unfold remove_feedback
    rw [if_neg h]

/-- Witness for C9 at a concrete context, a negative index and an index
past the end. -/
theorem c9_remove_out_of_range_witness :
    remove_guideline ctxW (-2) = ctxW ∧ remove_feedback ctxW 5 = ctxW :=
  ⟨(c9_remove_out_of_range ctxW (-2)).1 (by decide),
   (c9_remove_out_of_range ctxW 5).2 (by decide)⟩

/-! ## Claim C8 -/

/-- C8: update_field_datatype raises an explicit error on an unknown
field name, raises an explicit error when the new datatype does not start
with the xsd: tag, and otherwise changes only the datatype of that field,
leaving every other field and the stored document untouched; the error
cases perform no mutation, which the pure embedding renders by returning
no new state. -/
theorem c8_update_field_datatype_contract (reg : RegistryState)
    (field_name new_datatype : String) :
    (lookupA reg.fields field_name = none →
      update_field_datatype reg field_name new_datatype =
        .error (.valueError ("Unknown field: " ++ field_name)))
    ∧ ((lookupA reg.fields field_name).isSome = true →
      pyStartsWith new_datatype "xsd:" = false →
      update_field_datatype reg field_name new_datatype =
        .error (.valueError "Datatype must start with xsd:"))
    ∧ (∀ reg2, update_field_datatype reg field_name new_datatype = .ok reg2 →
      reg2.stored = reg.stored
      ∧ lookupA reg2.fields field_name =
          (lookupA reg.fields field_name).map (fun f => { f with datatype := new_datatype })
      ∧ ∀ k, k ≠ field_name → lookupA reg2.fields k = lookupA reg.fields k) := by
  refine ⟨?_, ?_, ?_⟩
  · intro h
    simp [update_field_datatype, h]
  · intro h1 h2
    have hn : (lookupA reg.fields field_name).isNone = false := by
      cases hl : lookupA reg.fields field_name
      · rw [hl] at h1
        simp at h1
      · simp
    simp [update_field_datatype, hn, h2]
  · intro reg2 h
    by_cases h1 : (lookupA reg.fields field_name).isNone
    · simp [update_field_datatype, h1] at h
    · by_cases h2 : pyStartsWith new_datatype "xsd:"
      · simp [update_field_datatype, h1, h2] at h
        subst h
        refine ⟨rfl, lookupA_mapAtA_self reg.fields field_name _, ?_⟩
        intro k hk
        exact lookupA_mapAtA_ne reg.fields field_name k _ hk
      · simp [update_field_datatype, h1, h2] at h

/-- Witness for C8: a concrete unknown-field error, and a concrete
successful update whose frame conditions are instantiated. -/
theorem c8_update_field_datatype_witness :
    update_field_datatype regW "height" "xsd:decimal" =
      .error (.valueError "Unknown field: height")
    ∧ (regW2.stored = regW.stored
       ∧ lookupA regW2.fields "age" =
           (lookupA regW.fields "age").map (fun f => { f with datatype := "xsd:decimal" })
       ∧ ∀ k, k ≠ "age" → lookupA regW2.fields k = lookupA regW.fields k) :=
  ⟨(c8_update_field_datatype_contract regW "height" "xsd:decimal").1 (by decide),
   (c8_update_field_datatype_contract regW "age" "xsd:decimal").2.2 regW2 (by rfl)⟩

/-! ## Claim C6 -/

theorem deserialize_serialize (l : List (String × DataField)) :
    deserializeFields (serializeFields l) = l := by
  induction l with
  | nil => rfl
  | cons p rest ih =>
    simp only [serializeFields, deserializeFields, List.map_cons] at ih ⊢
    rw [ih]

/-- C6: save followed by load restores the fields mapping of the
registry field for field, every DataField attribute included; the yaml
text encoding between the structured document and the file is the
external library, assumed faithful on this document shape. -/
theorem c6_save_load_roundtrip (reg : RegistryState) :
    (registryLoad (registrySave reg)).fields = reg.fields := by
  unfold registryLoad registrySave
  by_cases h : (serializeFields reg.fields).isEmpty
  · simp [h]
  · simp [h, deserialize_serialize]

/-! ## Claim C5 -/

/-- C5: the scenario create_instance of Jane Doe with age 17 succeeds,
stores the instance under the normalised identifier jane_doe, keeps the
raw string in the properties mapping, and writes exactly one triple with
the integer-typed literal 17 at the ff:age path. -/
theorem c5_create_instance_scenario :
    okInst (create_instance storeC5 "Jane Doe" [("age", .vStr "17")]) = some expectedC5
    ∧ (okStore (create_instance storeC5 "Jane Doe" [("age", .vStr "17")])).map
        (fun st => lookupA st.instances "jane_doe") = some (some expectedC5)
    ∧ expectedC5.instance_id = "jane_doe"
    ∧ expectedC5.properties = [("age", .vStr "17")]
    ∧ (expectedC5.graph.filter
        (fun t => decide (t.2.1 = .uri (ffNS ++ "age") ∧ t.2.2 = .litInt 17))).length = 1 := by
  decide

/-! ## Claim C4 -/

/-- C4 failing input: a field whose constraints carry the minCount entry
(stored as the string that import_from_shacl and the yaml round trip
produce) and an empty value.  The guard of validate_value evaluates the
Python expression comparing that string with the integer zero, which
raises TypeError; the claim and the spec call for a ValueError naming the
field, which is what the datatype violations (second conjunct) do
produce. -/
theorem c4_mincount_comparison_bug :
    errOf (create_instance storeC4 "p" [("income", .vStr "")]) =
      some (.typeError "not supported between instances of str and int")
    ∧ errOf (create_instance storeC5 "p" [("age", .vStr "abc")]) =
      some (.valueError "Invalid value for age: abc") := by
  decide

/-! ## Claim C10 -/

/-- C10 counterexample: the integer one is none of True, False, the
string true or the string false, yet create_instance accepts it for a
boolean field, because the Python membership test compares with == and
1 == True; the literal written is the boolean true. -/
theorem c10_counterexample_integer_one :
    (okInst (create_instance storeC10 "x" [("flag", .vInt 1)])).isSome = true
    ∧ ¬ ((PyVal.vInt 1) ∈ [PyVal.vBool true, PyVal.vBool false,
          PyVal.vStr "true", PyVal.vStr "false"])
    ∧ okGraph (create_instance storeC10 "x" [("flag", .vInt 1)]) =
        some [(.uri (ffNS ++ "citizen_x"), rdfTypeT, ffCitizenT),
              (.uri (ffNS ++ "citizen_x"), .uri (ffNS ++ "flag"), .litBool true)] := by
  decide

/-! ## Claim C3 -/

/-- C3: when the extracted turtle content fails to parse, exactly one
repair round is made through the completion service; when the repaired
content fails to parse as well, that failure propagates as the fatal
error of the call (the codebase defines no dedicated exception class, so
the rdflib parse exception itself is raised), no partially parsed graph
is returned, and no further repair attempt is made. -/
theorem c3_single_repair_round (hasRegistry : Bool)
    (parse : String → Except PyErr Graph) (fix extract : String → String)
    (extractFields : String → List DataField) (response_text : String) (e1 : PyErr)
    (h1 : parse (extract response_text) = .error e1) :
    (process_llm_response hasRegistry parse fix extract extractFields response_text).2 = 1
    ∧ ∀ e2, parse (extract (fix (extract response_text))) = .error e2 →
      (process_llm_response hasRegistry parse fix extract extractFields response_text).1 =
        .error e2 := by
  constructor
  · simp only [process_llm_response, h1]
    cases h2 : parse (extract (fix (extract response_text))) <;> simp [h2]
  · intro e2 h2
    simp only [process_llm_response, h1, h2]

/-- Witness for C3: a parse oracle that rejects everything, identity
extraction and repair; the call makes one repair round and surfaces the
second parse failure. -/
theorem c3_single_repair_round_witness :
    (process_llm_response false parseAlwaysFails (fun s => s) (fun s => s)
      (fun _ => []) "no turtle here").2 = 1
    ∧ (process_llm_response false parseAlwaysFails (fun s => s) (fun s => s)
      (fun _ => []) "no turtle here").1 =
        .error (.valueError "Bad syntax in turtle document") :=
  ⟨(c3_single_repair_round false parseAlwaysFails (fun s => s) (fun s => s)
      (fun _ => []) "no turtle here" _ rfl).1,
   (c3_single_repair_round false parseAlwaysFails (fun s => s) (fun s => s)
      (fun _ => []) "no turtle here" _ rfl).2 _ rfl⟩

theorem to_literal_boolean (v : PyVal) :
    to_literal v "xsd:boolean" = .ok (.litBool (pyTruthy v)) := by
  have h1 : ("xsd:boolean" = "xsd:integer") = False := by decide
  have h2 : ("xsd:boolean" = "xsd:decimal") = False := by decide
  simp [to_literal, h1, h2]

theorem validate_flag_eval (v : PyVal) :
    validate_value (fun _ _ => false) flagField v =
      .ok (pyIn v [.vBool true, .vBool false, .vStr "true", .vStr "false"]) := by
  have h1 : pyStartsWith flagField.datatype "xsd:" = true := by decide
  have hdt : pySplit ':' flagField.datatype = ["xsd", "boolean"] := by decide
  have h3 : ("boolean" = "integer") = False := by decide
  have h4 : ("boolean" = "decimal") = False := by decide
  have hmc : flagField.constraints.minCount = none := rfl
  cases hv : pyTruthy v <;>
    simp [validate_value, h1, hdt, h3, h4, hmc, hv]

/-- C10 amended: for the boolean field, create_instance accepts exactly
the values Python-equal to one of True, False, the string true or the
string false (which includes the integers one and zero), and the literal
written into the graph is built from Python truthiness of the accepted
value, so the strings true and false both yield the boolean literal
true while False and the integer zero yield the literal false. -/
theorem c10_amended_boolean_semantics (v : PyVal) :
    okGraph (create_instance storeC10 "x" [("flag", v)]) =
      (if pyIn v [.vBool true, .vBool false, .vStr "true", .vStr "false"] then
        some [(.uri (ffNS ++ "citizen_x"), rdfTypeT, ffCitizenT),
              (.uri (ffNS ++ "citizen_x"), .uri (ffNS ++ "flag"), .litBool (pyTruthy v))]
      else none) := by
  have hsafe : pyLower (pyReplace (pyReplace "x" " " "_") "-" "_") = "x" := by decide
  have hpath : pyStartsWith flagField.path "ff:" = true := by decide
  have hdrop : pyDropChars flagField.path 3 = "flag" := by decide
  cases hin : pyIn v [.vBool true, .vBool false, .vStr "true", .vStr "false"]
  · have hvp : validateProps storeC10 [("flag", v)] =
        .error (.valueError ("Invalid value for flag: " ++ pyStr v)) := by
      simp [validateProps, storeC10, lookupA, validate_flag_eval, hin]
    simp [create_instance, hvp, okGraph, okInst]
  · have hvp : validateProps storeC10 [("flag", v)] = .ok () := by
      simp [validateProps, storeC10, lookupA, validate_flag_eval, hin]
    have hfd : flagField.datatype = "xsd:boolean" := rfl
    have hbt : buildTriples storeC10 [("flag", v)] =
        .ok [(.uri (ffNS ++ "flag"), .litBool (pyTruthy v))] := by
      simp [buildTriples, storeC10, lookupA, hfd, to_literal_boolean, hpath, hdrop]
    have happ : ffNS ++ "citizen_" ++ "x" = ffNS ++ "citizen_x" := by decide
    simp [create_instance, hvp, hbt, okGraph, okInst, hsafe, happ]

/-! ## Import fold lemmas -/

theorem add_field_fields (r : RegistryState) (f : DataField) :
    (add_field r f).fields = insertA r.fields f.name f := rfl

theorem import_fold_split (g : Graph) (aos : List (String × AOEntry)) (subs : List Node)
    (r : RegistryState) (ns : List String) :
    subs.foldl (fun acc u =>
      match processField g aos u with
      | .ok f => (add_field acc.1 f, insertSet acc.2 f.name)
      | .error _ => acc) (r, ns)
    = ((subs.filterMap (fun u => (processField g aos u).toOption)).foldl add_field r,
       (subs.filterMap (fun u => (processField g aos u).toOption)).foldl
         (fun a f => insertSet a f.name) ns) := by
  induction subs generalizing r ns with
  | nil => rfl
  | cons u rest ih =>
    cases hp : processField g aos u <;>
      simp [List.filterMap_cons, hp, Except.toOption, ih]

theorem import_eq (reg : RegistryState) (g : Graph) :
    import_from_shacl reg g =
      ((successFields g).foldl add_field reg,
       (successFields g).foldl (fun a f => insertSet a f.name) []) := by
  unfold import_from_shacl successFields
  exact import_fold_split g (answerOptionsOf g) _ reg []

theorem foldl_insertSet_name (fs : List DataField) (ns : List String) :
    fs.foldl (fun a f => insertSet a f.name) ns =
      (fs.map DataField.name).foldl insertSet ns :=
  (List.foldl_map _ _ _ _).symm

theorem lookup_foldAdd_preserve (fs : List DataField) (r : RegistryState) (k : String)
    (h : (lookupA r.fields k).isSome = true) :
    (lookupA ((fs.foldl add_field r).fields) k).isSome = true := by
  induction fs generalizing r with
  | nil => exact h
  | cons f rest ih =>
    rw [List.foldl_cons]
    apply ih
    rw [add_field_fields]
    by_cases hk : k = f.name
    · subst hk
      rw [lookupA_insertA_self]
      rfl
    · rw [lookupA_insertA_ne _ _ _ _ hk]
      exact h

theorem mem_foldAdd_isSome (fs : List DataField) (r : RegistryState) (f : DataField)
    (hf : f ∈ fs) :
    (lookupA ((fs.foldl add_field r).fields) f.name).isSome = true := by
  induction fs generalizing r with
  | nil => cases hf
  | cons f0 rest ih =>
    rw [List.foldl_cons]
    rcases List.mem_cons.1 hf with rfl | hmem
    · apply lookup_foldAdd_preserve
      rw [add_field_fields, lookupA_insertA_self]
      rfl
    · exact ih _ hmem

theorem lookup_foldAdd_not_mem (fs : List DataField) (r : RegistryState) (k : String)
    (h : k ∉ fs.map DataField.name) :
    lookupA ((fs.foldl add_field r).fields) k = lookupA r.fields k := by
  induction fs generalizing r with
  | nil => rfl
  | cons f rest ih =>
    simp only [List.map_cons, List.mem_cons, not_or] at h
    rw [List.foldl_cons, ih _ h.2, add_field_fields, lookupA_insertA_ne _ _ _ _ h.1]

theorem lookup_foldAdd_mem_nodup (fs : List DataField) (r : RegistryState)
    (hnd : (fs.map DataField.name).Nodup) (f : DataField) (hf : f ∈ fs) :
    lookupA ((fs.foldl add_field r).fields) f.name = some f := by
  induction fs generalizing r with
  | nil => cases hf
  | cons f0 rest ih =>
    rw [List.map_cons, List.nodup_cons] at hnd
    rw [List.foldl_cons]
    rcases List.mem_cons.1 hf with rfl | hmem
    · rw [lookup_foldAdd_not_mem rest _ _ hnd.1, add_field_fields, lookupA_insertA_self]
    · exact ih _ hnd.2 hmem

theorem foldAdd_stored (f : DataField) (fs : List DataField) (r : RegistryState) :
    ((f :: fs).foldl add_field r).stored =
      serializeFields (((f :: fs).foldl add_field r).fields) := by
  induction fs generalizing f r with
  | nil => rfl
  | cons f2 rest ih =>
    rw [List.foldl_cons]
    exact ih f2 (add_field r f)

theorem foldAdd_fixed (fs : List DataField) (r : RegistryState)
    (hlook : ∀ f ∈ fs, lookupA r.fields f.name = some f)
    (hstored : fs ≠ [] → r.stored = serializeFields r.fields) :
    fs.foldl add_field r = r := by
  induction fs with
  | nil => rfl
  | cons f rest ih =>
    obtain ⟨fl, st⟩ := r
    have h1 : lookupA fl f.name = some f := hlook f (List.mem_cons_self _ _)
    have hadd : add_field ⟨fl, st⟩ f = ⟨fl, st⟩ := by
      unfold add_field registrySave
      simp only [insertA_lookup_eq _ _ _ h1]
      have := hstored (by simp)
      simp only at this
      rw [← this]
    rw [List.foldl_cons, hadd]
    exact ih (fun f2 h2 => hlook f2 (List.mem_cons_of_mem _ h2)) (fun _ => hstored (by simp))

/-! ## Claim C2 -/

/-- C2: import_from_shacl never aborts on a failing subject: the
per-field exception is caught and the loop continues, the returned list
is exactly the distinct names of the successfully registered fields (in
particular the empty list, not an error, when none succeed), and every
successfully processed field is present in the final registry. -/
theorem c2_import_partial_failure (reg : RegistryState) (g : Graph) :
    (import_from_shacl reg g).2 = (successNames g).foldl insertSet []
    ∧ ∀ n, n ∈ successNames g →
        (lookupA (import_from_shacl reg g).1.fields n).isSome = true := by
  constructor
  · rw [import_eq]
    exact foldl_insertSet_name _ _
  · intro n hn
    rw [import_eq]
    obtain ⟨f, hf, rfl⟩ := List.mem_map.1 hn
    exact mem_foldAdd_isSome _ _ _ hf

/-- Witness for C2 on the mixed graph: the malformed subject (two
distinct categories raise inside its block) comes first, yet the later
well-formed field age is imported and registered. -/
theorem c2_import_partial_failure_witness :
    (import_from_shacl emptyRegistry gMix).2 = ["age"]
    ∧ (lookupA (import_from_shacl emptyRegistry gMix).1.fields "age").isSome = true :=
  ⟨((c2_import_partial_failure emptyRegistry gMix).1).trans (by decide),
   (c2_import_partial_failure emptyRegistry gMix).2 "age" (by decide)⟩

/-! ## Claim C7 -/

/-- C7: importing the same document twice leaves the registry, in memory
and as stored, exactly as after the first import, and both calls return
the same list of names; the hypothesis asks the successfully imported
field names of the document to be pairwise distinct, which holds for
every document whose DataField subjects have distinct local names. -/
theorem c7_import_idempotent (reg : RegistryState) (g : Graph)
    (h : (successNames g).Nodup) :
    import_from_shacl (import_from_shacl reg g).1 g = import_from_shacl reg g := by
  have hnd : ((successFields g).map DataField.name).Nodup := h
  have hmain : (successFields g).foldl add_field ((successFields g).foldl add_field reg) =
      (successFields g).foldl add_field reg := by
    cases hfs : successFields g with
    | nil => rfl
    | cons f0 rest =>
      apply foldAdd_fixed
      · intro f hf
        rw [← hfs]
        apply lookup_foldAdd_mem_nodup _ _ hnd
        rw [hfs]
        exact hf
      · intro _
        rw [← hfs]
        rw [hfs]
        exact foldAdd_stored f0 rest reg
  rw [import_eq reg g]
  rw [import_eq]
  simp only [hmain]

/-- Witness for C7 on a one-field document. -/
theorem c7_import_idempotent_witness :
    import_from_shacl (import_from_shacl emptyRegistry gC7).1 gC7 =
      import_from_shacl emptyRegistry gC7 :=
  c7_import_idempotent emptyRegistry gC7 (by decide)

/-! ## Rdf list traversal lemmas -/

theorem getValue_eq_some {g : Graph} {s p o : Node} (h : getValue g s p = some o) :
    ∃ t ∈ g, t.1 = s ∧ t.2.1 = p ∧ t.2.2 = o := by
  unfold getValue at h
  cases hf : g.find? (fun t => decide (t.1 = s ∧ t.2.1 = p)) with
  | none => rw [hf] at h; cases h
  | some t =>
    rw [hf] at h
    cases h
    have hmem := List.mem_of_find?_eq_some hf
    have hp := List.find?_some hf
    rw [decide_eq_true_eq] at hp
    exact ⟨t, hmem, hp.1, hp.2, rfl⟩

theorem encodesList_det {g : Graph} {n : Node} {vs ws : List Node}
    (h1 : EncodesList g n vs) (h2 : EncodesList g n ws) : vs = ws := by
  induction h1 generalizing ws with
  | last ht hf hr =>
    cases h2 with
    | last ht2 hf2 hr2 =>
      rw [hf] at hf2
      cases hf2
      rfl
    | cons ht2 hf2 hr2 hm2 h2x =>
      rw [hr] at hr2
      cases hr2
      exact absurd rfl hm2
  | cons ht hf hr hm h1x ih =>
    cases h2 with
    | last ht2 hf2 hr2 =>
      rw [hr] at hr2
      cases hr2
      exact absurd rfl hm
    | cons ht2 hf2 hr2 hm2 h2x =>
      rw [hf] at hf2
      cases hf2
      rw [hr] at hr2
      cases hr2
      rw [ih h2x]

theorem truncChain_det {g : Graph} {n : Node} {vs ws : List Node}
    (h1 : TruncChain g n vs) (h2 : TruncChain g n ws) : vs = ws := by
  induction h1 generalizing ws with
  | last ht hf hr =>
    cases h2 with
    | last ht2 hf2 hr2 =>
      rw [hf] at hf2
      cases hf2
      rfl
    | cons ht2 hf2 hr2 hm2 h2x =>
      rw [hr] at hr2
      cases hr2
  | cons ht hf hr hm h1x ih =>
    cases h2 with
    | last ht2 hf2 hr2 =>
      rw [hr] at hr2
      cases hr2
    | cons ht2 hf2 hr2 hm2 h2x =>
      rw [hf] at hf2
      cases hf2
      rw [hr] at hr2
      cases hr2
      rw [ih h2x]

theorem rest_mem_restSubjects {g : Graph} {n m : Node}
    (hr : getValue g n rdfRest = some m) : n ∈ restSubjects g := by
  obtain ⟨t, htm, hts, htp, _⟩ := getValue_eq_some hr
  unfold restSubjects
  rw [List.mem_filterMap]
  exact ⟨t, htm, by simp [htp, hts]⟩

theorem encodesList_nodes {g : Graph} {n : Node} {vs : List Node}
    (h : EncodesList g n vs) :
    ∃ nodes : List Node, nodes.Nodup ∧ nodes.length = vs.length ∧
      (∀ x ∈ nodes, x ∈ restSubjects g) ∧
      (∀ x ∈ nodes, ∃ ws, EncodesList g x ws ∧ ws.length ≤ vs.length) := by
  induction h with
  | @last n v ht hf hr =>
    refine ⟨[n], List.nodup_singleton n, rfl, ?_, ?_⟩
    · intro x hx
      rw [List.mem_singleton] at hx
      subst hx
      exact rest_mem_restSubjects hr
    · intro x hx
      rw [List.mem_singleton] at hx
      subst hx
      exact ⟨[v], EncodesList.last ht hf hr, le_refl 1⟩
  | @cons n v m vs ht hf hr hm hx ih =>
    obtain ⟨nodes, hnd, hlen, hrest, hws⟩ := ih
    have hchain : EncodesList g n (v :: vs) := EncodesList.cons ht hf hr hm hx
    have hnotmem : n ∉ nodes := by
      intro hn
      obtain ⟨ws, hws2, hlews⟩ := hws n hn
      rw [← encodesList_det hchain hws2] at hlews
      simp at hlews
    refine ⟨n :: nodes, List.nodup_cons.2 ⟨hnotmem, hnd⟩, by simp [hlen], ?_, ?_⟩
    · intro x hxm
      rcases List.mem_cons.1 hxm with rfl | hx2
      · exact rest_mem_restSubjects hr
      · exact hrest x hx2
    · intro x hxm
      rcases List.mem_cons.1 hxm with rfl | hx2
      · exact ⟨v :: vs, hchain, le_refl _⟩
      · obtain ⟨ws, h1, h2⟩ := hws x hx2
        exact ⟨ws, h1, h2.trans (by simp)⟩

theorem encodesList_length_le {g : Graph} {n : Node} {vs : List Node}
    (h : EncodesList g n vs) : vs.length ≤ g.length := by
  obtain ⟨nodes, hnd, hlen, hrest, _⟩ := encodesList_nodes h
  have h1 : nodes.length ≤ (restSubjects g).length :=
    (List.subperm_of_subset hnd (fun x hx => hrest x hx)).length_le
  have h2 : (restSubjects g).length ≤ g.length := List.length_filterMap_le _ _
  omega

theorem truncChain_nodes {g : Graph} {n : Node} {vs : List Node}
    (h : TruncChain g n vs) :
    ∃ nodes : List Node, nodes.Nodup ∧ nodes.length + 1 = vs.length ∧
      (∀ x ∈ nodes, x ∈ restSubjects g) ∧
      (∀ x ∈ nodes, ∃ ws, TruncChain g x ws ∧ ws.length ≤ vs.length) := by
  induction h with
  | @last n v ht hf hr =>
    exact ⟨[], List.nodup_nil, rfl, by simp, by simp⟩
  | @cons n v m vs ht hf hr hm hx ih =>
    obtain ⟨nodes, hnd, hlen, hrest, hws⟩ := ih
    have hchain : TruncChain g n (v :: vs) := TruncChain.cons ht hf hr hm hx
    have hnotmem : n ∉ nodes := by
      intro hn
      obtain ⟨ws, hws2, hlews⟩ := hws n hn
      rw [← truncChain_det hchain hws2] at hlews
      simp at hlews
    refine ⟨n :: nodes, List.nodup_cons.2 ⟨hnotmem, hnd⟩, by simp [← hlen], ?_, ?_⟩
    · intro x hxm
      rcases List.mem_cons.1 hxm with rfl | hx2
      · exact rest_mem_restSubjects hr
      · exact hrest x hx2
    · intro x hxm
      rcases List.mem_cons.1 hxm with rfl | hx2
      · exact ⟨v :: vs, hchain, le_refl _⟩
      · obtain ⟨ws, h1, h2⟩ := hws x hx2
        exact ⟨ws, h1, h2.trans (by simp)⟩

theorem truncChain_length_le {g : Graph} {n : Node} {vs : List Node}
    (h : TruncChain g n vs) : vs.length ≤ g.length + 1 := by
  obtain ⟨nodes, hnd, hlen, hrest, _⟩ := truncChain_nodes h
  have h1 : nodes.length ≤ (restSubjects g).length :=
    (List.subperm_of_subset hnd (fun x hx => hrest x hx)).length_le
  have h2 : (restSubjects g).length ≤ g.length := List.length_filterMap_le _ _
  omega

theorem traverseAux_none (g : Graph) (fuel : Nat) : traverseAux g fuel none = [] := by
  cases fuel <;> rfl

theorem traverseAux_of_encodes {g : Graph} {n : Node} {vs : List Node}
    (h : EncodesList g n vs) :
    ∀ fuel, vs.length ≤ fuel → traverseAux g fuel (some n) = vs.filter truthyN := by
  induction h with
  | @last n v ht hf hr =>
    intro fuel hfuel
    cases fuel with
    | zero => simp at hfuel
    | succ fuel =>
      cases htv : truthyN v <;>
        simp [traverseAux, ht, hf, hr, List.filter_cons, htv]
  | @cons n v m vs ht hf hr hm hx ih =>
    intro fuel hfuel
    cases fuel with
    | zero => simp at hfuel
    | succ fuel =>
      have hfuel2 : vs.length ≤ fuel := by
        simp at hfuel
        omega
      cases htv : truthyN v <;>
        simp [traverseAux, ht, hf, hr, hm, ih fuel hfuel2, List.filter_cons, htv]

theorem traverseAux_of_trunc {g : Graph} {n : Node} {vs : List Node}
    (h : TruncChain g n vs) :
    ∀ fuel, vs.length ≤ fuel → traverseAux g fuel (some n) = vs.filter truthyN := by
  induction h with
  | @last n v ht hf hr =>
    intro fuel hfuel
    cases fuel with
    | zero => simp at hfuel
    | succ fuel =>
      cases htv : truthyN v <;>
        simp [traverseAux, ht, hf, hr, traverseAux_none, List.filter_cons, htv]
  | @cons n v m vs ht hf hr hm hx ih =>
    intro fuel hfuel
    cases fuel with
    | zero => simp at hfuel
    | succ fuel =>
      have hfuel2 : vs.length ≤ fuel := by
        simp at hfuel
        omega
      cases htv : truthyN v <;>
        simp [traverseAux, ht, hf, hr, hm, ih fuel hfuel2, List.filter_cons, htv]

theorem traverse_of_encodes {g : Graph} {n : Node} {vs : List Node}
    (h : EncodesList g n vs) : traverse_rdf_list g n = vs.filter truthyN :=
  traverseAux_of_encodes h (g.length + 1)
    ((encodesList_length_le h).trans (Nat.le_succ _))

theorem traverse_of_trunc {g : Graph} {n : Node} {vs : List Node}
    (h : TruncChain g n vs) : traverse_rdf_list g n = vs.filter truthyN :=
  traverseAux_of_trunc h (g.length + 1) (truncChain_length_le h)

theorem encodesList_ne_nil {g : Graph} {n : Node} {vs : List Node}
    (h : EncodesList g n vs) : vs ≠ [] := by
  cases h <;> simp

theorem truncChain_ne_nil {g : Graph} {n : Node} {vs : List Node}
    (h : TruncChain g n vs) : vs ≠ [] := by
  cases h <;> simp

/-! ## Claim C1 -/

/-- C1 counterexample: the rdf list of length zero is the node rdf:nil
itself, which is not a blank node, so the sh:in collection appends it as
a direct value; the importer records one allowed-value entry with id and
label nil where the claim demands zero entries. -/
theorem c1_counterexample_empty_list :
    objects gN0 (Node.bnode 0) shIn = [rdfNil]
    ∧ collectAllowedValues gN0 (Node.bnode 0) = [rdfNil]
    ∧ (applyPropShape gN0 [] (Node.bnode 0) emptyConstraints).allowed_values =
        some [{ id := "nil", label := "nil" }] := by
  decide

/-- C1 amended: when the single sh:in value of a property shape is a
blank node heading a well-formed rdf list with values vs (length at
least one), the importer collects exactly the truthy elements of vs, in
list order, because the if-first guard of traverse_rdf_list skips a
falsy element such as the empty-string literal; when every element is
truthy (the usual case of a URI-valued list) all of vs is collected and
its resolved entries are stored under the allowed-values constraint key,
and when every element is falsy nothing is collected and the
allowed-values key is not recorded at all.  The same holds for a
truncated list, which yields exactly the truthy values collected up to
the missing rest link, without raising.  For the length-zero list the
head is rdf:nil, not a blank node, and the counterexample shows one entry
is recorded instead of zero. -/
theorem c1_amended_list_extraction (g : Graph) (aos : List (String × AOEntry))
    (c : Constraints) (ps head : Node) (k : Nat) (vs : List Node)
    (hin : objects g ps shIn = [head]) (hb : head = Node.bnode k)
    (h : EncodesList g head vs ∨ TruncChain g head vs) :
    collectAllowedValues g ps = vs.filter truthyN
    ∧ ((∀ x ∈ vs, truthyN x = true) →
        collectAllowedValues g ps = vs
        ∧ (applyPropShape g aos ps c).allowed_values = some (vs.map (resolveAO aos)))
    ∧ (vs.filter truthyN = [] →
        (applyPropShape g aos ps c).allowed_values = c.allowed_values) := by
  have htrav : traverse_rdf_list g head = vs.filter truthyN :=
    h.elim traverse_of_encodes traverse_of_trunc
  have hne : vs ≠ [] := h.elim encodesList_ne_nil truncChain_ne_nil
  have hcol : collectAllowedValues g ps = vs.filter truthyN := by
    unfold collectAllowedValues
    rw [hin]
    subst hb
    cases hfe : (vs.filter truthyN).isEmpty
    · simp [htrav, hfe]
    · have hnil : vs.filter truthyN = [] := List.isEmpty_iff.1 hfe
      simp [htrav, hfe, hnil]
  refine ⟨hcol, ?_, ?_⟩
  · intro h2
    have hfs : vs.filter truthyN = vs := List.filter_eq_self.2 h2
    have hemp : vs.isEmpty = false := by simpa [List.isEmpty_iff] using hne
    refine ⟨by rw [hcol, hfs], ?_⟩
    unfold applyPropShape
    cases h1 : getValue g ps shTargetObjectsOf <;>
      cases h2x : getValue g ps shDatatype <;>
        simp [hcol, hfs, hemp]
  · intro h3
    unfold applyPropShape
    cases h1 : getValue g ps shTargetObjectsOf <;>
      cases h2x : getValue g ps shDatatype <;>
        simp [hcol, h3]

/-- Witness for C1 amended: the two-element list of gC1, whose elements
are truthy URI nodes, resolved with an empty answer-option index. -/
theorem c1_amended_list_extraction_witness :
    collectAllowedValues gC1 (.bnode 0) =
      [.uri "http://example.org#a", .uri "http://example.org#b"]
    ∧ (applyPropShape gC1 [] (.bnode 0) emptyConstraints).allowed_values =
        some [{ id := "a", label := "a" }, { id := "b", label := "b" }] := by
  have h2 : EncodesList gC1 (.bnode 2) [.uri "http://example.org#b"] :=
    EncodesList.last (by decide) (by decide) (by decide)
  have h1 : EncodesList gC1 (.bnode 1)
      [.uri "http://example.org#a", .uri "http://example.org#b"] :=
    EncodesList.cons (by decide) (by decide) (by decide) (by decide) h2
  have hmain := c1_amended_list_extraction gC1 [] emptyConstraints (.bnode 0) (.bnode 1) 1 _
    (by decide) rfl (Or.inl h1)
  have hall := hmain.2.1 (by decide)
  exact ⟨hall.1, hall.2.trans (by decide)⟩

end ShaclGen
